import Mathlib

/-!
Shallow embedding of `tensorflow/core/data/flat_map_utils.cc`
(`FlatMapRandomAccessHandler`): a random-access index over a flat-mapped
dataset pipeline.  The handler materializes, once, the list of sub-datasets
produced by running a captured map function over each element of the input
dataset, computes a cumulative-cardinality table over them with sentinel
short-circuiting, and memoizes the table (or the error) in the member
`cumulative_cardinalities_`.

External collaborators (the input dataset's iterator, the captured function's
runtime, variant-tensor decoding) are modelled as data supplied by a `World`;
the handler's mutable members are a `HandlerState` threaded explicitly.
-/

namespace FlatMapUtils

/-- Statuses that can flow through the handler.  `absl::Status` values are
propagated verbatim by the code; one constructor per distinct producer of
errors is enough to track identity.  `invalidShape` carries the message built
at `flat_map_utils.cc` line 134. -/
inductive Error where
  | environmentCloneFailure
  | sourceIterationError
  | functionInvocationError
  | invalidShape (msg : String)
  | decodeError
  deriving DecidableEq

/-- Tensor dtypes, as far as the check `dtype() == DT_VARIANT` at line 132
distinguishes them. -/
inductive DType where
  | variant
  | int64Ty
  | floatTy
  deriving DecidableEq

/-- A sub-dataset (`DatasetBase*`): its identity and what its
`Cardinality()` query answers (a finite count, or one of the two framework
sentinels). -/
structure Dataset where
  id : Nat
  card : Int
  deriving DecidableEq

instance exceptDecEq {ε α : Type} [DecidableEq ε] [DecidableEq α] :
    DecidableEq (Except ε α) := fun x y =>
  match x, y with
  | Except.error a, Except.error b =>
    if h : a = b then Decidable.isTrue (by rw [h])
    else Decidable.isFalse (fun hc => h (by cases hc; rfl))
  | Except.error _, Except.ok _ => Decidable.isFalse (fun hc => Except.noConfusion hc)
  | Except.ok _, Except.error _ => Decidable.isFalse (fun hc => Except.noConfusion hc)
  | Except.ok a, Except.ok b =>
    if h : a = b then Decidable.isTrue (by rw [h])
    else Decidable.isFalse (fun hc => h (by cases hc; rfl))

/-- A tensor as far as `MakeInputDatasets` inspects one: its dtype, whether
its shape is scalar, and what `GetDatasetFromVariantTensor` would yield for
it. -/
structure Tensor where
  dtype : DType
  isScalar : Bool
  decoded : Except Error Dataset
  deriving DecidableEq

/-- An element pulled from the input dataset's iterator: a tuple of tensors
(`std::vector<Tensor> input_tensors`), opaque to the handler. -/
abbrev Element := List Tensor

/-- The external collaborators of one handler: the successive results of
`iterator->GetNext` on the input dataset (after the list is exhausted the
iterator signals end of sequence), and the behaviour of the instantiated
captured map function. -/
structure World where
  steps : List (Except Error Element)
  mapFunc : Element → Except Error (List Tensor)

/-- Modelled from the spec: the sentinel cardinality constants
`kInfiniteCardinality` and `kUnknownCardinality` are declared in
`tensorflow/core/framework/dataset.h`, which is not among the sources here;
the spec (section 3) requires two fixed sentinels distinct from every finite
count, and the framework defines them as `-1` and `-2`. -/
def kInfiniteCardinality : Int := -1

/-- Modelled from the spec: see `kInfiniteCardinality`. -/
def kUnknownCardinality : Int := -2

/-- The test on line 91: is this cardinality one of the two sentinels? -/
def isSentinelCard (c : Int) : Bool :=
  c == kInfiniteCardinality || c == kUnknownCardinality

/-- The validation on lines 131 to 133: the map function's result must be
exactly one tensor, of dtype `DT_VARIANT`, with scalar shape. -/
def shapeOk : List Tensor → Bool
  | [t] => t.dtype == DType.variant && t.isScalar
  | _ => false

/-- The message of the `InvalidArgumentError` built on lines 134 to 136. -/
def invalidShapeMsg : String :=
  "Flat map function must return a single scalar of dtype DT_VARIANT representing a dataset."

/-- Decoding step of lines 139 to 141: `GetDatasetFromVariantTensor` on the
single mapped tensor.  The empty case is unreachable because `shapeOk`
guarantees exactly one tensor. -/
def decodeFirst : List Tensor → Except Error Dataset
  | t :: _ => t.decoded
  | [] => Except.error Error.decodeError

/-- One iteration of the `while (true)` loop of `MakeInputDatasets`
(lines 119 to 144) applied to one `GetNext` outcome: propagate an iteration
error, run the map function and propagate its error, reject an invalid
shape, and otherwise decode the variant tensor into a dataset. -/
def processStep (f : Element → Except Error (List Tensor))
    (st : Except Error Element) : Except Error Dataset :=
  match st with
  | Except.error e => Except.error e
  | Except.ok el =>
    match f el with
    | Except.error e => Except.error e
    | Except.ok mapped =>
      if shapeOk mapped then decodeFirst mapped
      else Except.error (Error.invalidShape invalidShapeMsg)

/-- The whole drive loop of `MakeInputDatasets`, instrumented with the
reference-count trace: the first component lists, in order, every dataset on
which `Ref()` was called (line 142) before the loop ended, and the second
component is `none` on end-of-sequence success or the aborting error.  On
abort the local vector holding the first component is destroyed without any
`Unref`. -/
def makeInputDatasetsRun (f : Element → Except Error (List Tensor)) :
    List (Except Error Element) → List Dataset × Option Error
  | [] => ([], none)
  | st :: rest =>
    match processStep f st with
    | Except.error e => ([], some e)
    | Except.ok d =>
      match makeInputDatasetsRun f rest with
      | (ds, oe) => (d :: ds, oe)

/-- The value of `MakeInputDatasets` as its caller sees it (lines 109 to
145): the accumulated dataset list on success, or the first error. -/
def MakeInputDatasets (w : World) : Except Error (List Dataset) :=
  match makeInputDatasetsRun w.mapFunc w.steps with
  | (ds, none) => Except.ok ds
  | (_, some e) => Except.error e

/-- The `for` loop of `ComputeCardinalities` (lines 89 to 101): `acc` is the
previous cumulative entry (`cumulative_cardinalities.back()`, `0` before the
first finite entry).  A sentinel cardinality is pushed as the last entry and
the loop returns at once. -/
def cumulativeWalk : List Int → Int → List Int
  | [], _ => []
  | c :: rest, acc =>
    if isSentinelCard c then [c]
    else (acc + c) :: cumulativeWalk rest (acc + c)

/-- Lines 87 to 105 applied to the cardinalities of the input datasets: run
the loop, then push `0` if the table would otherwise be empty. -/
def cumulativeTable (cards : List Int) : List Int :=
  let t := cumulativeWalk cards 0
  if t.isEmpty then [0] else t

/-- The handler's mutable members: `cumulative_cardinalities_` (a
`StatusOr<std::vector<int64_t>>`) and `input_datasets_` (the owned
sub-datasets, `Unref`ed by the destructor). -/
structure HandlerState where
  cumulativeCardinalities : Except Error (List Int)
  inputDatasets : List Dataset
  deriving DecidableEq

/-- Modelled from the spec: the member initializer of
`cumulative_cardinalities_` lives in `flat_map_utils.h`, which is not among
the sources here.  Per the spec (section 3 Cached State, section 4.4) a
freshly constructed handler is in the not-yet-computed state, which
`Cardinality` recognises as an OK, empty table. -/
def freshCumulativeCardinalities : Except Error (List Int) := Except.ok []

/-- The constructor (lines 41 to 65): if cloning the function library fails,
the status is moved into `cumulative_cardinalities_` and construction stops
(the poisoned state); otherwise the members keep their fresh values. -/
def mkHandler (cloneStatus : Except Error Unit) : HandlerState :=
  match cloneStatus with
  | Except.error e =>
    { cumulativeCardinalities := Except.error e, inputDatasets := [] }
  | Except.ok _ =>
    { cumulativeCardinalities := freshCumulativeCardinalities
      inputDatasets := [] }

/-- The destructor (lines 67 to 72): `Unref` exactly the datasets held in
`input_datasets_`, in order.  This function returns that trace of
decrements. -/
def teardownUnrefs (s : HandlerState) : List Dataset := s.inputDatasets

/-- Lines 82 to 106: materialize `input_datasets_` if it is still empty
(`TF_ASSIGN_OR_RETURN` assigns the member only on success), then build the
cumulative table from the datasets' cardinalities. -/
def ComputeCardinalities (w : World) (s : HandlerState) :
    Except Error (List Int) × HandlerState :=
  if s.inputDatasets.isEmpty then
    match MakeInputDatasets w with
    | Except.error e => (Except.error e, s)
    | Except.ok ds =>
      (Except.ok (cumulativeTable (ds.map Dataset.card)),
        { s with inputDatasets := ds })
  else
    (Except.ok (cumulativeTable (s.inputDatasets.map Dataset.card)), s)

/-- Outcome of one `Cardinality()` call.  `ub` marks an execution that
violates a documented precondition of its callee — `absl::StatusOr`
`operator->` on a non-OK value, or `std::vector::back()` on an empty
vector — whose behaviour is undefined. -/
inductive CardResult where
  | ok (v : Int)
  | err (e : Error)
  | ub
  deriving DecidableEq

/-- The expression `cumulative_cardinalities_->back()` on an OK table:
defined only when the vector is non-empty. -/
def backOr (t : List Int) : CardResult :=
  match t.getLast? with
  | some v => CardResult.ok v
  | none => CardResult.ub

/-- Lines 74 to 80, exactly in source order: return a cached error; else if
the cached table is empty, recompute and overwrite the member with the
result, value or error; then evaluate `cumulative_cardinalities_->back()`.
When the recomputation stored an error, that final dereference is applied to
a non-OK `StatusOr`, which is undefined behaviour. -/
def Cardinality (w : World) (s : HandlerState) : CardResult × HandlerState :=
  match s.cumulativeCardinalities with
  | Except.error e => (CardResult.err e, s)
  | Except.ok table =>
    if table.isEmpty then
      match ComputeCardinalities w s with
      | (r, s1) =>
        match r with
        | Except.ok t =>
          (backOr t, { s1 with cumulativeCardinalities := Except.ok t })
        | Except.error e =>
          (CardResult.ub, { s1 with cumulativeCardinalities := Except.error e })
    else
      (backOr table, s)

/-- Results of `n` successive `Cardinality()` calls on the same handler. -/
def callTrace (w : World) : Nat → HandlerState → List CardResult
  | 0, _ => []
  | Nat.succ n, s =>
    match Cardinality w s with
    | (r, s1) => r :: callTrace w n s1

/-- A scalar variant tensor that decodes to the given dataset. -/
def variantTensor (d : Dataset) : Tensor :=
  { dtype := DType.variant, isScalar := true, decoded := Except.ok d }

/-- A successful `GetNext` outcome whose element carries the given dataset. -/
def okStep (d : Dataset) : Except Error Element :=
  Except.ok [variantTensor d]

/-- A map function that returns its input unchanged, so that the dataset
embedded by `okStep` is the one decoded. -/
def idMapFunc : Element → Except Error (List Tensor) :=
  fun el => Except.ok el

/-- A fully successful world producing exactly the given sub-datasets. -/
def mkWorld (ds : List Dataset) : World :=
  { steps := ds.map okStep, mapFunc := idMapFunc }

/-- A world whose input iterator fails on its very first `GetNext`. -/
def wIterErr : World :=
  { steps := [Except.error Error.sourceIterationError], mapFunc := idMapFunc }

/-- A world whose map function fails on the first element. -/
def wFuncErr : World :=
  { steps := [okStep ⟨4, 2⟩],
    mapFunc := fun _ => Except.error Error.functionInvocationError }

/-- The dataset acquired before the abort in `wAbort`. -/
def dLeak : Dataset := ⟨7, 5⟩

/-- A world whose first element materializes fine and whose second `GetNext`
fails, so the drive loop aborts after one `Ref`. -/
def wAbort : World :=
  { steps := [okStep dLeak, Except.error Error.sourceIterationError],
    mapFunc := idMapFunc }

theorem cumulativeWalk_cons_finite (c : Int) (rest : List Int) (acc : Int)
    (hc : isSentinelCard c = false) :
    cumulativeWalk (c :: rest) acc = (acc + c) :: cumulativeWalk rest (acc + c) := by
  simp [cumulativeWalk, hc]

theorem cumulativeWalk_cons_sentinel (c : Int) (rest : List Int) (acc : Int)
    (hc : isSentinelCard c = true) :
    cumulativeWalk (c :: rest) acc = [c] := by
  simp [cumulativeWalk, hc]

theorem cumulativeWalk_ne_nil (c : Int) (rest : List Int) (acc : Int) :
    cumulativeWalk (c :: rest) acc ≠ [] := by
  cases hc : isSentinelCard c <;> simp [cumulativeWalk, hc]

theorem cumulativeTable_ne_nil (cards : List Int) : cumulativeTable cards ≠ [] := by
  cases cards with
  | nil => simp [cumulativeTable, cumulativeWalk]
  | cons c rest =>
    cases hw : cumulativeWalk (c :: rest) 0 with
    | nil => exact absurd hw (cumulativeWalk_ne_nil c rest 0)
    | cons x xs => simp [cumulativeTable, hw]

theorem cumulativeTable_eq_walk (l : List Int) (h : l ≠ []) :
    cumulativeTable l = cumulativeWalk l 0 := by
  cases l with
  | nil => exact absurd rfl h
  | cons c rest =>
    cases hw : cumulativeWalk (c :: rest) 0 with
    | nil => exact absurd hw (cumulativeWalk_ne_nil c rest 0)
    | cons x xs => simp [cumulativeTable, hw]

theorem cumulativeWalk_get (cards : List Int) :
    ∀ (acc : Int) (i : Nat), i < cards.length →
      (∀ c ∈ cards.take (i + 1), isSentinelCard c = false) →
      (cumulativeWalk cards acc)[i]? = some (acc + (cards.take (i + 1)).sum) := by
  induction cards with
  | nil =>
    intro acc i hi hfin
    simp at hi
  | cons c rest ih =>
    intro acc i hi hfin
    have hc : isSentinelCard c = false := hfin c (by simp)
    rw [cumulativeWalk_cons_finite c rest acc hc]
    cases i with
    | zero => simp
    | succ j =>
      have hj : j < rest.length := by simpa using hi
      have hfin2 : ∀ x ∈ rest.take (j + 1), isSentinelCard x = false := by
        intro x hx
        refine hfin x ?_
        rw [List.take_succ_cons]
        exact List.mem_cons_of_mem c hx
      rw [List.getElem?_cons_succ, ih (acc + c) j hj hfin2]
      rw [List.take_succ_cons, List.sum_cons, add_assoc]

theorem cumulativeWalk_sentinel_stop (s : Int) (hs : isSentinelCard s = true) :
    ∀ (pre post : List Int) (acc : Int),
      (∀ c ∈ pre, isSentinelCard c = false) →
      cumulativeWalk (pre ++ s :: post) acc = cumulativeWalk pre acc ++ [s] := by
  intro pre
  induction pre with
  | nil =>
    intro post acc hpre
    simp [cumulativeWalk, hs]
  | cons c rest ih =>
    intro post acc hpre
    have hc : isSentinelCard c = false := hpre c (by simp)
    rw [List.cons_append, cumulativeWalk_cons_finite _ _ _ hc,
      cumulativeWalk_cons_finite _ _ _ hc,
      ih post (acc + c) (fun x hx => hpre x (List.mem_cons_of_mem c hx)),
      List.cons_append]

theorem cumulativeWalk_length_finite :
    ∀ (pre : List Int) (acc : Int), (∀ c ∈ pre, isSentinelCard c = false) →
      (cumulativeWalk pre acc).length = pre.length := by
  intro pre
  induction pre with
  | nil => intro acc hpre; simp [cumulativeWalk]
  | cons c rest ih =>
    intro acc hpre
    rw [cumulativeWalk_cons_finite _ _ _ (hpre c (by simp))]
    simp [ih (acc + c) (fun x hx => hpre x (List.mem_cons_of_mem c hx))]

/-- C3: for every sub-sequence cardinality list whose entries up to position
`i` are all finite, the cumulative table holds at position `i` the sum of the
cardinalities `0` through `i` (so entry `0` is the first cardinality);
concretely, finite cardinalities `[3, 0, 5]` yield the table `[3, 3, 8]`, and
`Cardinality` on a handler over such sub-datasets returns the table's final
entry `8`. -/
theorem c3_cumulative_sums (cards : List Int) (i : Nat) (hi : i < cards.length)
    (hfin : ∀ c ∈ cards.take (i + 1), isSentinelCard c = false) :
    (cumulativeTable cards)[i]? = some ((cards.take (i + 1)).sum) ∧
    cumulativeTable [3, 0, 5] = [3, 3, 8] ∧
    (Cardinality (mkWorld [⟨1, 3⟩, ⟨2, 0⟩, ⟨3, 5⟩]) (mkHandler (Except.ok ()))).1 =
      CardResult.ok 8 := by
  refine ⟨?_, by decide, by decide⟩
  have hne : cards ≠ [] := by
    intro hnil
    rw [hnil] at hi
    simp at hi
  rw [cumulativeTable_eq_walk cards hne, cumulativeWalk_get cards 0 i hi hfin,
    zero_add]

/-- Witness for C3 at the concrete input `[3, 0, 5]`, `i = 2`. -/
theorem c3_cumulative_sums_witness :
    (cumulativeTable [3, 0, 5])[2]? = some ((([3, 0, 5] : List Int).take 3).sum) :=
  (c3_cumulative_sums [3, 0, 5] 2 (by decide) (by decide)).1

/-- C4: for every cardinality list made of a finite prefix, a sentinel, and
an arbitrary tail, the walk pushes the first sentinel as the last table entry
and stops: the table equals the one computed with the tail removed (so the
cardinality of every later sub-sequence is never queried), its last entry is
the sentinel, and it has one entry per finite prefix element plus one;
concretely `[4, INFINITE, 7]` yields the table `[4, INFINITE]` and
`Cardinality` returns `INFINITE`. -/
theorem c4_sentinel_stops_walk (pre post : List Int) (s : Int)
    (hpre : ∀ c ∈ pre, isSentinelCard c = false) (hs : isSentinelCard s = true) :
    cumulativeTable (pre ++ s :: post) = cumulativeTable (pre ++ [s]) ∧
    (cumulativeTable (pre ++ s :: post)).getLast? = some s ∧
    (cumulativeTable (pre ++ s :: post)).length = pre.length + 1 ∧
    cumulativeTable [4, kInfiniteCardinality, 7] = [4, kInfiniteCardinality] ∧
    (Cardinality (mkWorld [⟨1, 4⟩, ⟨2, kInfiniteCardinality⟩, ⟨3, 7⟩])
        (mkHandler (Except.ok ()))).1 = CardResult.ok kInfiniteCardinality := by
  have hne1 : pre ++ s :: post ≠ [] := by simp
  have hne2 : pre ++ [s] ≠ [] := by simp
  have h1 : cumulativeWalk (pre ++ s :: post) 0 = cumulativeWalk pre 0 ++ [s] :=
    cumulativeWalk_sentinel_stop s hs pre post 0 hpre
  have h2 : cumulativeWalk (pre ++ [s]) 0 = cumulativeWalk pre 0 ++ [s] :=
    cumulativeWalk_sentinel_stop s hs pre [] 0 hpre
  refine ⟨?_, ?_, ?_, by decide, by decide⟩
  · rw [cumulativeTable_eq_walk _ hne1, cumulativeTable_eq_walk _ hne2, h1, h2]
  · rw [cumulativeTable_eq_walk _ hne1, h1]
    exact List.getLast?_concat _
  · rw [cumulativeTable_eq_walk _ hne1, h1]
    simp [cumulativeWalk_length_finite pre 0 hpre]

/-- Witness for C4 at the concrete input `pre = [4]`, sentinel
`kInfiniteCardinality`, tail `[7]`. -/
theorem c4_sentinel_stops_walk_witness :
    cumulativeTable ([4] ++ kInfiniteCardinality :: [7]) =
      cumulativeTable ([4] ++ [kInfiniteCardinality]) :=
  (c4_sentinel_stops_walk [4] [7] kInfiniteCardinality (by decide) (by decide)).1

/-- C7: for an input dataset with zero elements, materialization returns the
empty sub-dataset list, the cumulative table is `[0]`, and `Cardinality`
returns `0`, whatever the map function is. -/
theorem c7_empty_source_zero (f : Element → Except Error (List Tensor)) :
    MakeInputDatasets { steps := [], mapFunc := f } = Except.ok [] ∧
    (ComputeCardinalities { steps := [], mapFunc := f } (mkHandler (Except.ok ()))).1 =
      Except.ok [0] ∧
    Cardinality { steps := [], mapFunc := f } (mkHandler (Except.ok ())) =
      (CardResult.ok 0,
        { cumulativeCardinalities := Except.ok [0], inputDatasets := [] }) :=
  ⟨rfl, rfl, rfl⟩

/-- Witness for C7 with the identity map function. -/
theorem c7_empty_source_zero_witness :
    MakeInputDatasets { steps := [], mapFunc := idMapFunc } = Except.ok [] :=
  (c7_empty_source_zero idMapFunc).1

/-- C1, against a source whose first `GetNext` fails: the failed pass's error
is memoized in `cumulative_cardinalities_` and the second and third calls
return that identical cached error, but the first call does not return the
error to the caller — it dereferences the freshly errored `StatusOr`
(`cumulative_cardinalities_->back()` after the assignment on line 77),
which is undefined behaviour. -/
theorem c1_error_not_returned_on_first_call :
    callTrace wIterErr 3 (mkHandler (Except.ok ())) =
      [CardResult.ub, CardResult.err Error.sourceIterationError,
        CardResult.err Error.sourceIterationError] ∧
    ((Cardinality wIterErr (mkHandler (Except.ok ()))).2).cumulativeCardinalities =
      Except.error Error.sourceIterationError := by
  exact ⟨by decide, by decide⟩

/-- C8, against a source whose map function fails: the first call and the
second call to `Cardinality` do not yield the identical result — the first
is the undefined dereference, the second returns the cached error — so
N-fold idempotence fails whenever the first computation fails. -/
theorem c8_repeat_calls_differ_after_failed_compute :
    callTrace wFuncErr 2 (mkHandler (Except.ok ())) =
      [CardResult.ub, CardResult.err Error.functionInvocationError] ∧
    CardResult.ub ≠ CardResult.err Error.functionInvocationError := by
  exact ⟨by decide, by decide⟩

/-- C5: a handler whose construction failed (the function-library clone
returned an error) is poisoned: every one of `n` successive `Cardinality`
calls returns that same stored error, for every world — the right-hand side
does not depend on `w`, so the source iterator and the map function are
never consulted. -/
theorem c5_poisoned_isolation (w : World) (e : Error) (n : Nat) :
    callTrace w n (mkHandler (Except.error e)) =
      List.replicate n (CardResult.err e) := by
  induction n with
  | zero => rfl
  | succ m ih =>
    have hstep : Cardinality w (mkHandler (Except.error e)) =
        (CardResult.err e, mkHandler (Except.error e)) := rfl
    simp only [callTrace, hstep]
    rw [ih]
    rfl

/-- Witness for C5 at a concrete world and error. -/
theorem c5_poisoned_isolation_witness :
    callTrace (mkWorld []) 2 (mkHandler (Except.error Error.environmentCloneFailure)) =
      List.replicate 2 (CardResult.err Error.environmentCloneFailure) :=
  c5_poisoned_isolation (mkWorld []) Error.environmentCloneFailure 2

theorem computeCardinalities_ok_ne_nil (w : World) (s : HandlerState) (t : List Int)
    (h : (ComputeCardinalities w s).1 = Except.ok t) : t ≠ [] := by
  unfold ComputeCardinalities at h
  by_cases hd : s.inputDatasets.isEmpty = true
  · rw [if_pos hd] at h
    cases hM : MakeInputDatasets w with
    | error e => rw [hM] at h; simp at h
    | ok ds =>
      rw [hM] at h
      simp at h
      rw [← h]
      exact cumulativeTable_ne_nil _
  · rw [if_neg hd] at h
    simp at h
    rw [← h]
    exact cumulativeTable_ne_nil _

/-- C9: the cached state moves monotonically.  A settled cache (anything
other than the fresh OK-empty table) is never recomputed or changed: the
call leaves the whole handler state untouched.  A fresh cache settles in one
call: afterwards it is either a stored error or a stored non-empty table,
never fresh again. -/
theorem c9_cache_monotonic (w : World) (s : HandlerState) :
    (s.cumulativeCardinalities ≠ Except.ok [] → (Cardinality w s).2 = s) ∧
    (s.cumulativeCardinalities = Except.ok [] →
      ((Cardinality w s).2).cumulativeCardinalities ≠ Except.ok []) := by
  constructor
  · intro h
    cases hc : s.cumulativeCardinalities with
    | error e => simp [Cardinality, hc]
    | ok t =>
      have ht : t ≠ [] := by
        intro hnil
        rw [hnil] at hc
        exact h hc
      have hemp : t.isEmpty = false := by
        cases t with
        | nil => exact absurd rfl ht
        | cons x xs => rfl
      simp [Cardinality, hc, hemp]
  · intro h
    cases hC : ComputeCardinalities w s with
    | mk r s1 =>
      cases r with
      | error e => simp [Cardinality, h, hC]
      | ok t =>
        have ht : t ≠ [] := computeCardinalities_ok_ne_nil w s t (by rw [hC])
        simpa [Cardinality, h, hC] using ht

/-- Witness for C9: a handler with a settled non-empty table is left
untouched by a further call. -/
theorem c9_cache_monotonic_witness :
    (Cardinality (mkWorld [])
        { cumulativeCardinalities := Except.ok [5], inputDatasets := [] }).2 =
      { cumulativeCardinalities := Except.ok [5], inputDatasets := [] } :=
  (c9_cache_monotonic (mkWorld [])
    { cumulativeCardinalities := Except.ok [5], inputDatasets := [] }).1 (by decide)

/-- C10: whenever `ComputeCardinalities` succeeds, the table it returns is
non-empty, so `cumulative_cardinalities_->back()` on a successfully cached
table is well-defined: the modelled `back` yields an actual value, never the
undefined-behaviour marker. -/
theorem c10_computed_table_nonempty (w : World) (s : HandlerState) (t : List Int)
    (h : (ComputeCardinalities w s).1 = Except.ok t) :
    t ≠ [] ∧ ∃ v, backOr t = CardResult.ok v := by
  have ht : t ≠ [] := computeCardinalities_ok_ne_nil w s t h
  refine ⟨ht, ?_⟩
  cases hl : t.getLast? with
  | none =>
    rw [List.getLast?_eq_none_iff] at hl
    exact absurd hl ht
  | some v =>
    exact ⟨v, by simp [backOr, hl]⟩

/-- Witness for C10 on the empty-source world, whose computation returns the
table `[0]`. -/
theorem c10_computed_table_nonempty_witness :
    ([0] : List Int) ≠ [] ∧ ∃ v, backOr [0] = CardResult.ok v :=
  c10_computed_table_nonempty (mkWorld []) (mkHandler (Except.ok ())) [0] (by decide)

theorem makeInputDatasetsRun_none_length (f : Element → Except Error (List Tensor)) :
    ∀ (steps : List (Except Error Element)) (ds : List Dataset),
      makeInputDatasetsRun f steps = (ds, none) → ds.length = steps.length := by
  intro steps
  induction steps with
  | nil =>
    intro ds h
    simp [makeInputDatasetsRun] at h
    simp [h]
  | cons st rest ih =>
    intro ds h
    simp only [makeInputDatasetsRun] at h
    cases hp : processStep f st with
    | error e => rw [hp] at h; simp at h
    | ok d =>
      rw [hp] at h
      cases hr : makeInputDatasetsRun f rest with
      | mk ds2 oe =>
        rw [hr] at h
        simp at h
        obtain ⟨h1, h2⟩ := h
        rw [← h1]
        simp [ih ds2 (by rw [hr, h2])]

theorem cardinality_fresh_state (w : World) :
    (Cardinality w (mkHandler (Except.ok ()))).2 =
      match MakeInputDatasets w with
      | Except.ok ds =>
        { cumulativeCardinalities := Except.ok (cumulativeTable (ds.map Dataset.card)),
          inputDatasets := ds }
      | Except.error e =>
        { cumulativeCardinalities := Except.error e, inputDatasets := [] } := by
  cases hM : MakeInputDatasets w with
  | ok ds =>
    simp [Cardinality, mkHandler, freshCumulativeCardinalities, ComputeCardinalities, hM]
  | error e =>
    simp [Cardinality, mkHandler, freshCumulativeCardinalities, ComputeCardinalities, hM]

/-- C2 counterexample: in `wAbort` the drive loop acquires one reference
(dataset `dLeak` is decoded and `Ref`ed) before the second `GetNext` aborts
the pass, yet after the failed `Cardinality` call the handler holds no
datasets, so teardown decrements nothing: the handle acquired before the
aborting step is not released at teardown, contradicting the claim. -/
theorem c2_abort_leak_counterexample :
    (makeInputDatasetsRun wAbort.mapFunc wAbort.steps).1 = [dLeak] ∧
    teardownUnrefs ((Cardinality wAbort (mkHandler (Except.ok ()))).2) = [] ∧
    ([dLeak] : List Dataset) ≠ [] := by
  exact ⟨by decide, by decide, by decide⟩

/-- C2 as amended: for a source whose materialization succeeds, exactly one
reference is acquired per source element (the acquisition trace has one
entry per iterator step) and teardown releases exactly the acquired handles,
in order, each once.  When materialization aborts partway, the handler
retains none of the handles acquired before the aborting step: its dataset
list stays empty and teardown releases nothing (those references are not
released by the handler). -/
theorem c2_ownership_amended (w : World) :
    (∀ ds, makeInputDatasetsRun w.mapFunc w.steps = (ds, none) →
      ds.length = w.steps.length ∧
      teardownUnrefs ((Cardinality w (mkHandler (Except.ok ()))).2) = ds) ∧
    (∀ ds e, makeInputDatasetsRun w.mapFunc w.steps = (ds, some e) →
      teardownUnrefs ((Cardinality w (mkHandler (Except.ok ()))).2) = []) := by
  constructor
  · intro ds h
    have hM : MakeInputDatasets w = Except.ok ds := by
      simp [MakeInputDatasets, h]
    refine ⟨makeInputDatasetsRun_none_length w.mapFunc w.steps ds h, ?_⟩
    simp [teardownUnrefs, cardinality_fresh_state w, hM]
  · intro ds e h
    have hM : MakeInputDatasets w = Except.error e := by
      simp [MakeInputDatasets, h]
    simp [teardownUnrefs, cardinality_fresh_state w, hM]

/-- Witness for C2 as amended, on a fully successful two-element source. -/
theorem c2_ownership_amended_witness :
    teardownUnrefs ((Cardinality (mkWorld [⟨1, 3⟩, ⟨2, 0⟩])
        (mkHandler (Except.ok ()))).2) = [⟨1, 3⟩, ⟨2, 0⟩] :=
  ((c2_ownership_amended (mkWorld [⟨1, 3⟩, ⟨2, 0⟩])).1 [⟨1, 3⟩, ⟨2, 0⟩] (by decide)).2

theorem makeInputDatasetsRun_append_ok (f : Element → Except Error (List Tensor)) :
    ∀ (pre tail : List (Except Error Element)),
      (∀ st ∈ pre, ∃ d, processStep f st = Except.ok d) →
      makeInputDatasetsRun f (pre ++ tail) =
        ((makeInputDatasetsRun f pre).1 ++ (makeInputDatasetsRun f tail).1,
          (makeInputDatasetsRun f tail).2) := by
  intro pre
  induction pre with
  | nil =>
    intro tail hpre
    simp [makeInputDatasetsRun]
  | cons st rest ih =>
    intro tail hpre
    obtain ⟨d, hd⟩ := hpre st (by simp)
    rw [List.cons_append]
    simp only [makeInputDatasetsRun, hd,
      ih tail (fun x hx => hpre x (List.mem_cons_of_mem st hx))]
    simp

/-- C6: if the steps before position `k` all materialize fine and the map
function's result at step `k` is not exactly one scalar `DT_VARIANT` tensor,
the drive loop aborts at step `k` with the `InvalidShape` invalid-argument
error — the acquisition trace is exactly that of the prefix, so no later
element is processed — `MakeInputDatasets` returns the error and no partial
sub-dataset list is retained in the handler's state after the failed
`Cardinality` call. -/
theorem c6_shape_violation_aborts (f : Element → Except Error (List Tensor))
    (pre rest : List (Except Error Element)) (el : Element) (mapped : List Tensor)
    (hpre : ∀ st ∈ pre, ∃ d, processStep f st = Except.ok d)
    (hmap : f el = Except.ok mapped) (hshape : shapeOk mapped = false) :
    makeInputDatasetsRun f (pre ++ Except.ok el :: rest) =
      ((makeInputDatasetsRun f pre).1, some (Error.invalidShape invalidShapeMsg)) ∧
    MakeInputDatasets { steps := pre ++ Except.ok el :: rest, mapFunc := f } =
      Except.error (Error.invalidShape invalidShapeMsg) ∧
    ((Cardinality { steps := pre ++ Except.ok el :: rest, mapFunc := f }
        (mkHandler (Except.ok ()))).2).inputDatasets = [] := by
  have hbad : processStep f (Except.ok el) =
      Except.error (Error.invalidShape invalidShapeMsg) := by
    simp [processStep, hmap, hshape]
  have htail : makeInputDatasetsRun f (Except.ok el :: rest) =
      ([], some (Error.invalidShape invalidShapeMsg)) := by
    simp only [makeInputDatasetsRun, hbad]
  have hrun : makeInputDatasetsRun f (pre ++ Except.ok el :: rest) =
      ((makeInputDatasetsRun f pre).1, some (Error.invalidShape invalidShapeMsg)) := by
    rw [makeInputDatasetsRun_append_ok f pre (Except.ok el :: rest) hpre, htail]
    simp
  have hM : MakeInputDatasets { steps := pre ++ Except.ok el :: rest, mapFunc := f } =
      Except.error (Error.invalidShape invalidShapeMsg) := by
    simp [MakeInputDatasets, hrun]
  refine ⟨hrun, hM, ?_⟩
  simp [cardinality_fresh_state, hM]

/-- Witness for C6: one good element, then an element the identity map sends
to an empty tensor tuple, which fails the shape validation. -/
theorem c6_shape_violation_aborts_witness :
    MakeInputDatasets
        { steps := [okStep ⟨1, 2⟩] ++ Except.ok [] :: [], mapFunc := idMapFunc } =
      Except.error (Error.invalidShape invalidShapeMsg) :=
  (c6_shape_violation_aborts idMapFunc [okStep ⟨1, 2⟩] [] [] []
    (by
      intro st hst
      rw [List.mem_singleton] at hst
      rw [hst]
      exact ⟨⟨1, 2⟩, by decide⟩)
    (by decide) (by decide)).2.1

end FlatMapUtils
